import Mathlib

/-!
Verification of the Resy booking bot (`src/resy-bot.ts`): a shallow embedding of
its conversation state machine, Resy API client parsers, and iMessage gateway
loop, together with theorems about the behaviours the specification describes.

Strings from the source (`toLowerCase`, `trim`, `slice`, `includes`, `split`)
are modelled on the underlying character lists, so that every definition is
executable and every concrete run evaluates inside the kernel.
-/

namespace ResyBot

/-! ## String primitives (JS `toLowerCase`, `trim`, `slice`, `includes`, split) -/

/-- JS `String.prototype.toLowerCase` (ASCII range, which is all the bot compares). -/
def lowerStr (s : String) : String := ⟨s.data.map Char.toLower⟩

/-- Whitespace recognised by JS `trim` (the forms that occur in message text). -/
def isWsChar (c : Char) : Bool := c = ' ' || c = '\t' || c = '\n' || c = '\r'

/-- JS `String.prototype.trim`. -/
def trimStr (s : String) : String :=
  ⟨((s.data.dropWhile isWsChar).reverse.dropWhile isWsChar).reverse⟩

/-- `text.toLowerCase().trim()` as computed at the top of `handleMessage`. -/
def lowerTrim (text : String) : String := trimStr (lowerStr text)

/-- JS `s.slice(0, n)`. -/
def takeStr (n : Nat) (s : String) : String := ⟨s.data.take n⟩

/-- JS `hay.includes(needle)`: `needle` occurs contiguously inside `hay`. -/
def strIncludes (hay needle : String) : Bool := decide (needle.data <:+: hay.data)

/-- Helper for splitting on whitespace runs; accumulates the current word reversed.
Models JS `split(/\s+/)` applied to a trimmed string (empty words dropped; the
JS corner case `"".split(/\s+/) = [""]` only produces a length-0 word, which no
caller of this function distinguishes from no word at all, since the single use
filters for words of length `> 2`). -/
def splitWsAux : List Char → List Char → List String
  | [], acc => if acc.isEmpty then [] else [⟨acc.reverse⟩]
  | c :: cs, acc =>
    if isWsChar c then
      if acc.isEmpty then splitWsAux cs [] else ⟨acc.reverse⟩ :: splitWsAux cs []
    else splitWsAux cs (c :: acc)

/-- JS `s.split(/\s+/)` on an already-trimmed string. -/
def splitWs (s : String) : List String := splitWsAux s.data []

/-- JS `s.split(sep)` for a single-character separator (keeps empty segments,
exactly like `String.prototype.split` with a plain string argument). -/
def splitOnChar (sep : Char) : List Char → List (List Char)
  | [] => [[]]
  | c :: cs =>
    if c = sep then [] :: splitOnChar sep cs
    else
      match splitOnChar sep cs with
      | [] => [[c]]
      | h :: t => (c :: h) :: t

/-- JS `parseInt(s, 10)` on an already-trimmed string: optional sign, then the
longest decimal-digit run; `none` models `NaN` (no leading digit). Trailing
garbage is ignored, so `parseInt("2x") = 2`. -/
def parseIntBase10 (s : String) : Option Int :=
  let (sign, rest) :=
    match s.data with
    | '-' :: t => ((-1 : Int), t)
    | '+' :: t => ((1 : Int), t)
    | cs => ((1 : Int), cs)
  let digits := rest.takeWhile Char.isDigit
  if digits.isEmpty then none
  else some (sign * (digits.foldl (fun a c => 10 * a + (c.toNat - 48)) 0 : Nat))

/-! ## Data model (`Venue`, `Slot`, `SearchParams`, `Step`, `State`) -/

/-- `interface Venue` of `resy-bot.ts`. `rating` is only ever displayed, so its
numeric type is immaterial here. -/
structure Venue where
  id : Nat
  name : String
  neighborhood : String
  city : String
  cuisine : List String
  rating : Nat
  reviews : Nat
  price : Nat
deriving DecidableEq, Repr

/-- `interface Slot` of `resy-bot.ts`. -/
structure Slot where
  start : String
  «end» : String
  type : String
  token : String
deriving DecidableEq, Repr

/-- `interface SearchParams`. Latitude/longitude are opaque to every claim, so
they are carried as integers. -/
structure SearchParams where
  query : String
  location : String
  lat : Int
  lng : Int
  day : String
  party_size : Nat
deriving DecidableEq, Repr

/-- `type Step = "idle" | "venue_list" | "slot_list" | "confirm"`. -/
inductive Step where
  | idle
  | venue_list
  | slot_list
  | confirm
deriving DecidableEq, Repr

/-- `interface State`; optional fields default to absent, so that
`{ step := .idle }` is the literal `{ step: "idle" }` of `reset()`.
`bookExpires` is an epoch timestamp (JS `Date` compares by its numeric value). -/
structure State where
  step : Step
  search : Option SearchParams := none
  venues : Option (List Venue) := none
  pickedVenue : Option Venue := none
  slots : Option (List Slot) := none
  pickedSlot : Option Slot := none
  bookToken : Option String := none
  bookExpires : Option Int := none
deriving DecidableEq, Repr

/-! ## Raw upstream responses

The upstream JSON is dynamic (`any`); these records model exactly the fields
the two parsers read, with `Option` for every `?.` access and the containing
`?? []` collapses folded into the list fields. -/

/-- One element of `data?.search?.hits` as read by `parseVenues`. -/
structure Hit where
  idResy : Option Nat := none
  name : Option String := none
  neighborhood : Option String := none
  locality : Option String := none
  cuisine : Option (List String) := none
  ratingAverage : Option Nat := none
  ratingCount : Option Nat := none
  priceRangeId : Option Nat := none
deriving DecidableEq, Repr

/-- The `/3/venuesearch/search` response as read by `parseVenues`
(`data?.search?.hits ?? []`). -/
structure SearchData where
  hits : List Hit := []
deriving DecidableEq, Repr

/-- One element of `v.slots` in the availability response. -/
structure RawSlot where
  dateStart : Option String := none
  dateEnd : Option String := none
  configType : Option String := none
  configToken : Option String := none
deriving DecidableEq, Repr

/-- One element of `data?.results?.venues` as read by `parseSlots`. -/
structure AvailVenue where
  venueIdResy : Option Nat := none
  slots : List RawSlot := []
deriving DecidableEq, Repr

/-- The `/4/find` availability response as read by `parseSlots`
(`data?.results?.venues ?? []`). -/
structure AvailData where
  venues : List AvailVenue := []
deriving DecidableEq, Repr

/-! ## Parsers (`parseVenues`, `parseSlots`) -/

/-- The hit-to-venue mapping at the top of `parseVenues`, with every `??`
default of the source. -/
def hitToVenue (h : Hit) : Venue :=
  { id := h.idResy.getD 0
    name := h.name.getD "Unknown"
    neighborhood := h.neighborhood.getD ""
    city := h.locality.getD ""
    cuisine := h.cuisine.getD []
    rating := h.ratingAverage.getD 0
    reviews := h.ratingCount.getD 0
    price := h.priceRangeId.getD 0 }

/-- `location.toLowerCase().replace(/[,.\x2d]/g, " ").trim()` split on
whitespace: the significant-word list of the location post-filter. -/
def locWords (location : String) : List String :=
  splitWs (trimStr ⟨(lowerStr location).data.map
    (fun c => if c = ',' || c = '.' || c = '-' then ' ' else c)⟩)

/-- The filter body of `parseVenues`: at least one location word of length `> 2`
occurs in the venue's lowercased `city ++ " " ++ neighborhood`. -/
def venueMatchesLoc (location : String) (v : Venue) : Bool :=
  (locWords location).any fun w =>
    decide (2 < w.length) && strIncludes (lowerStr (v.city ++ " " ++ v.neighborhood)) w

/-- Lines 106–118 of `parseVenues`: keep matching venues, fall back to the
unfiltered list when the filter removed everything, cap at 5. -/
def postFilterVenues (location : String) (all : List Venue) : List Venue :=
  let localOnes := all.filter (venueMatchesLoc location)
  (if 0 < localOnes.length then localOnes else all).take 5

/-- `parseVenues(data, location)`. -/
def parseVenues (data : SearchData) (location : String) : List Venue :=
  postFilterVenues location (data.hits.map hitToVenue)

/-- `s.date?.start?.split(" ")[1]?.slice(0, 5) ?? "??:??"`. -/
def clipTime (d : Option String) : String :=
  match d with
  | none => "??:??"
  | some str =>
    match (splitOnChar ' ' str.data).get? 1 with
    | none => "??:??"
    | some part => ⟨part.take 5⟩

/-- The slot mapping inside `parseSlots`. -/
def mkSlot (s : RawSlot) : Slot :=
  { start := clipTime s.dateStart
    «end» := clipTime s.dateEnd
    type := s.configType.getD "Standard"
    token := s.configToken.getD "" }

/-- `venues.find(v => v.venue?.id?.resy === venueId) ?? venues[0]`. -/
def availVenueFor (data : AvailData) (venueId : Nat) : Option AvailVenue :=
  match data.venues.find? (fun v => v.venueIdResy == some venueId) with
  | some v => some v
  | none => data.venues.head?

/-- `parseSlots(data, venueId)`: every slot of the selected venue, mapped in
order; no cap and no re-sort. -/
def parseSlots (data : AvailData) (venueId : Nat) : List Slot :=
  match availVenueFor data venueId with
  | none => []
  | some v => v.slots.map mkSlot

/-! ## Resy API client

Each `api*` function performs one `fetch`; the network is modelled by an
environment that yields, for given request arguments, the HTTP status (and for
`/3/book` also the body text) together with the parsed JSON payload. The
wrappers reproduce the status handling of the source: `res.ok` is status in
`[200, 300)`, and errors are thrown as messages (`Except.error`). -/

/-- Response of `/3/venuesearch/search`. -/
structure RespSearch where
  status : Nat
  data : SearchData := {}

/-- Response of `/4/find`. -/
structure RespAvail where
  status : Nat
  data : AvailData := {}

/-- `details?.book_token?.value`, `details?.book_token?.date_expires`, as read
by the slot-selection step. `bookTokenExpires = none` covers both an absent and
a falsy `date_expires` (the source's `? :` test). Payment and cancellation
metadata feed only the cosmetic confirmation text and are omitted. -/
structure DetailsData where
  bookTokenValue : Option String := none
  bookTokenExpires : Option Int := none
deriving DecidableEq, Repr

/-- Response of `/3/details`. -/
structure RespDetails where
  status : Nat
  data : DetailsData := {}

/-- `data?.resy_token` of the booking confirmation. -/
structure BookData where
  resyToken : Option String := none
deriving DecidableEq, Repr

/-- Response of `/3/book`; `body` is the error text read on failure. -/
structure RespBook where
  status : Nat
  body : String := ""
  data : BookData := {}

/-- The external world of one turn: the wall clock sampled by `new Date()` in
the confirm step, the LLM extraction call, and the four Resy endpoints keyed by
their request arguments. -/
structure Env where
  now : Int
  extract : String → Except String SearchParams
  searchResp : String → String → Int → Int → RespSearch
  availResp : Nat → String → Nat → Int → Int → RespAvail
  detailsResp : String → String → Nat → RespDetails
  bookResp : String → RespBook

/-- JS `res.ok`. -/
def httpOk (status : Nat) : Bool := 200 ≤ status && status < 300

/-- `apiSearch`: throws `Resy search failed (status)` on a non-ok status. -/
def apiSearch (env : Env) (query location : String) (lat lng : Int) :
    Except String SearchData :=
  let r := env.searchResp query location lat lng
  if httpOk r.status then Except.ok r.data
  else Except.error ("Resy search failed (" ++ toString r.status ++ ")")

/-- `apiAvailability`. -/
def apiAvailability (env : Env) (venueId : Nat) (day : String) (partySize : Nat)
    (lat lng : Int) : Except String AvailData :=
  let r := env.availResp venueId day partySize lat lng
  if httpOk r.status then Except.ok r.data
  else Except.error ("Resy availability failed (" ++ toString r.status ++ ")")

/-- `apiDetails`. -/
def apiDetails (env : Env) (configToken day : String) (partySize : Nat) :
    Except String DetailsData :=
  let r := env.detailsResp configToken day partySize
  if httpOk r.status then Except.ok r.data
  else Except.error ("Resy details failed (" ++ toString r.status ++ ")")

/-- `apiBook`: status 402 throws the distinguished `PAYMENT_REQUIRED`; any
other non-ok status throws a generic booking failure with status and body. -/
def apiBook (env : Env) (bookToken : String) : Except String BookData :=
  let r := env.bookResp bookToken
  if r.status = 402 then Except.error "PAYMENT_REQUIRED"
  else if httpOk r.status then Except.ok r.data
  else Except.error ("Booking failed (" ++ toString r.status ++ "): " ++ r.body)

/-! ## The conversation state machine (`handleMessage`)

The reply strings the bot produces are presentation only (spec §1 excludes all
formatting), so a turn's outcome is recorded as a `Reply` value carrying the
data each `fmt*` call receives; the gateway renders it to text through an
environment-supplied function. A thrown JS error is `Except.error msg`. The
`calls` field is the trace of Resy/LLM invocations performed during the turn,
used to state which upstream operations a turn did (not) perform. -/

/-- Which formatter answered the turn, with its arguments. -/
inductive Reply where
  | resetPrompt
  | noResults (query location : String)
  | venueList (venues : List Venue) (s : SearchParams)
  | backPrompt
  | slotList (venue : Venue) (slots : List Slot) (day : String) (party : Nat)
  | pickRange (maxSlots : Nat)
  | slotTaken
  | confirmMsg (venue : Venue) (slot : Slot) (day : String) (party : Nat)
  | declined (venue : Venue) (slots : List Slot) (day : String) (party : Nat)
  | expiredHold (venue : Venue) (slots : List Slot) (day : String) (party : Nat)
  | booked (venue : Venue) (slot : Slot) (day : String) (party : Nat)
      (resyToken : Option String)
  | paymentRequired (venueName : String)
  | confirmRePrompt
deriving DecidableEq, Repr

/-- One external invocation made by `handleMessage`. -/
inductive Call where
  | extract
  | search
  | availability
  | details
  | book
deriving DecidableEq, Repr

/-- Equality of turn outcomes is decidable (the standard library does not
derive this for `Except`). -/
def exceptDecEq {ε α : Type} [DecidableEq ε] [DecidableEq α] :
    DecidableEq (Except ε α)
  | Except.error a, Except.error b =>
    match decEq a b with
    | Decidable.isTrue h => Decidable.isTrue (by rw [h])
    | Decidable.isFalse h => Decidable.isFalse (fun hc => h (by injection hc))
  | Except.error _, Except.ok _ => Decidable.isFalse (fun hc => Except.noConfusion hc)
  | Except.ok _, Except.error _ => Decidable.isFalse (fun hc => Except.noConfusion hc)
  | Except.ok a, Except.ok b =>
    match decEq a b with
    | Decidable.isTrue h => Decidable.isTrue (by rw [h])
    | Decidable.isFalse h => Decidable.isFalse (fun hc => h (by injection hc))

instance {ε α : Type} [DecidableEq ε] [DecidableEq α] : DecidableEq (Except ε α) :=
  exceptDecEq

/-- Outcome of one `handleMessage` turn: the session state after the turn, the
reply or thrown error, and the trace of external calls made. -/
structure HMResult where
  state : State
  out : Except String Reply
  calls : List Call
deriving DecidableEq, Repr

/-- Defaults standing in for the TS non-null assertions (`state.venues!` etc.),
which are only evaluated on fields the flow has already populated. -/
def dVenue : Venue :=
  { id := 0, name := "", neighborhood := "", city := "", cuisine := []
    rating := 0, reviews := 0, price := 0 }

/-- Default for `state.pickedSlot!`. -/
def dSlot : Slot := { start := "", «end» := "", type := "", token := "" }

/-- Default for `state.search!`. -/
def dSearch : SearchParams :=
  { query := "", location := "", lat := 0, lng := 0, day := "", party_size := 0 }

/-- `state.bookExpires && new Date() > state.bookExpires`: the hold-expiry
check performed when "yes" is received. -/
def holdIsExpired (env : Env) (st : State) : Bool :=
  match st.bookExpires with
  | none => false
  | some t => decide (t < env.now)

/-- `isNaN(num) || num < 1 || num > (state.venues?.length ?? 0)` for
`num = parseInt(lower, 10)`: the venue_list input that falls through to a
brand-new search. -/
def venuePickInvalid (lower : String) (st : State) : Bool :=
  match parseIntBase10 lower with
  | none => true
  | some n => decide (n < 1) || decide (((st.venues.getD []).length : Int) < n)

/-- The idle branch of `handleMessage`: extract intent, search, store venues. -/
def handleIdle (env : Env) (st : State) (text : String) : HMResult :=
  match env.extract text with
  | Except.error e => { state := st, out := Except.error e, calls := [Call.extract] }
  | Except.ok search =>
    match apiSearch env search.query search.location search.lat search.lng with
    | Except.error e =>
      { state := st, out := Except.error e, calls := [Call.extract, Call.search] }
    | Except.ok data =>
      let venues := parseVenues data search.location
      if venues.isEmpty then
        { state := st, out := Except.ok (Reply.noResults search.query search.location)
          calls := [Call.extract, Call.search] }
      else
        { state := { step := Step.venue_list, search := some search, venues := some venues }
          out := Except.ok (Reply.venueList venues search)
          calls := [Call.extract, Call.search] }

/-- The venue_list branch for a valid numeric pick: fetch availability for
`venues[num-1]` and move to slot_list (a spread update, so the other session
fields are retained). -/
def handleVenuePick (env : Env) (st : State) (lower : String) : HMResult :=
  let num := (parseIntBase10 lower).getD 0
  let venue := (st.venues.getD []).getD (num.toNat - 1) dVenue
  let s := st.search.getD dSearch
  match apiAvailability env venue.id s.day s.party_size s.lat s.lng with
  | Except.error e => { state := st, out := Except.error e, calls := [Call.availability] }
  | Except.ok data =>
    let slots := parseSlots data venue.id
    { state := { st with step := Step.slot_list, pickedVenue := some venue, slots := some slots }
      out := Except.ok (Reply.slotList venue slots s.day s.party_size)
      calls := [Call.availability] }

/-- The slot_list branch: "back" to the venue list, re-prompt on an input
outside `1–min(slots.length, 10)`, otherwise request a hold via `/3/details`;
an absent (or falsy) `book_token` is the slot-taken soft failure. -/
def handleSlotList (env : Env) (st : State) (lower : String) : HMResult :=
  if lower = "back" then
    { state := { st with step := Step.venue_list, pickedVenue := none, slots := none }
      out := Except.ok (Reply.venueList (st.venues.getD []) (st.search.getD dSearch))
      calls := [] }
  else
    let maxSlots := min (st.slots.getD []).length 10
    match parseIntBase10 lower with
    | none => { state := st, out := Except.ok (Reply.pickRange maxSlots), calls := [] }
    | some n =>
      if n < 1 ∨ (maxSlots : Int) < n then
        { state := st, out := Except.ok (Reply.pickRange maxSlots), calls := [] }
      else
        let slot := (st.slots.getD []).getD (n.toNat - 1) dSlot
        let venue := st.pickedVenue.getD dVenue
        let s := st.search.getD dSearch
        match apiDetails env slot.token s.day s.party_size with
        | Except.error e => { state := st, out := Except.error e, calls := [Call.details] }
        | Except.ok details =>
          let bookToken := details.bookTokenValue.getD ""
          if bookToken = "" then
            { state := st, out := Except.ok Reply.slotTaken, calls := [Call.details] }
          else
            let st2 : State :=
              { st with step := Step.confirm, pickedSlot := some slot,
                        bookToken := some bookToken, bookExpires := details.bookTokenExpires }
            { state := st2
              out := Except.ok (Reply.confirmMsg venue slot s.day s.party_size)
              calls := [Call.details] }

/-- The confirm branch: decline, expiry check, commit, payment-required
degradation, re-prompt. A non-402 booking failure is rethrown (error result,
session unchanged). -/
def handleConfirm (env : Env) (st : State) (lower : String) : HMResult :=
  if lower = "no" ∨ lower = "back" then
    let st2 : State :=
      { st with step := Step.slot_list, pickedSlot := none,
                bookToken := none, bookExpires := none }
    { state := st2
      out := Except.ok (Reply.declined (st.pickedVenue.getD dVenue) (st.slots.getD [])
        (st.search.getD dSearch).day (st.search.getD dSearch).party_size)
      calls := [] }
  else if lower = "yes" ∨ lower = "confirm" ∨ lower = "book" then
    if holdIsExpired env st then
      { state := { st with step := Step.slot_list, pickedSlot := none, bookToken := none }
        out := Except.ok (Reply.expiredHold (st.pickedVenue.getD dVenue) (st.slots.getD [])
          (st.search.getD dSearch).day (st.search.getD dSearch).party_size)
        calls := [] }
    else
      match apiBook env (st.bookToken.getD "") with
      | Except.ok result =>
        { state := { step := Step.idle }
          out := Except.ok (Reply.booked (st.pickedVenue.getD dVenue) (st.pickedSlot.getD dSlot)
            (st.search.getD dSearch).day (st.search.getD dSearch).party_size result.resyToken)
          calls := [Call.book] }
      | Except.error e =>
        if e = "PAYMENT_REQUIRED" then
          { state := { st with step := Step.slot_list, pickedSlot := none, bookToken := none }
            out := Except.ok (Reply.paymentRequired (st.pickedVenue.getD dVenue).name)
            calls := [Call.book] }
        else { state := st, out := Except.error e, calls := [Call.book] }
  else { state := st, out := Except.ok Reply.confirmRePrompt, calls := [] }

/-- `handleMessage(text)`. The fuel bounds the re-entrant fallback
(venue_list's unrecognized input resets the session and re-dispatches the same
raw text, which lands in the idle branch and cannot recurse again); fuel 2
suffices for every real turn. The TS trailing fallback (reset + retry) is
unreachable because `Step` has exactly the four values matched here. -/
def handleMessage (env : Env) : Nat → State → String → Option HMResult
  | 0, _, _ => none
  | fuel + 1, st, text =>
    let lower := lowerTrim text
    if lower = "reset" ∨ lower = "start over" then
      some { state := { step := Step.idle }, out := Except.ok Reply.resetPrompt, calls := [] }
    else
      match st.step with
      | Step.idle => some (handleIdle env st text)
      | Step.venue_list =>
        if lower = "back" then
          some { state := { step := Step.idle }, out := Except.ok Reply.backPrompt, calls := [] }
        else if venuePickInvalid lower st then
          handleMessage env fuel { step := Step.idle } text
        else
          some (handleVenuePick env st lower)
      | Step.slot_list => some (handleSlotList env st lower)
      | Step.confirm => some (handleConfirm env st lower)

/-! ## The iMessage gateway loop (`startWatching`'s `onMessage` callback)

`botSentTexts` and `seenGuids` are JS `Set`s iterated in insertion order, so
they are modelled as duplicate-free lists in insertion order; `processing` is
the single-flight flag; the session record is owned by the loop. Rendering a
`Reply` (or a thrown error message) into outbound text is presentation and is
supplied by the gateway environment. -/

/-- An inbound transport event. `text = none` models an absent text field
(falsy like the empty string). -/
structure Msg where
  sender : String
  chatId : Option String := none
  text : Option String := none
  isFromMe : Bool := true
  isReaction : Bool := false
  guid : String
deriving DecidableEq, Repr

/-- Gateway configuration: `MY_ID` plus the cosmetic rendering of replies and
of caught error messages into outbound text. -/
structure GwEnv where
  myId : String
  render : Reply → String
  renderErr : String → String

/-- The gateway's mutable state between events. -/
structure GwState where
  botSentTexts : List String := []
  seenGuids : List String := []
  processing : Bool := false
  session : State := { step := Step.idle }
deriving DecidableEq, Repr

/-- One event's effect: the gateway state afterwards, the outbound sends
(destination, text), and whether the State Machine (`handleMessage`) ran. -/
structure GwResult where
  gw : GwState
  sends : List (String × String) := []
  invokedSM : Bool := false
deriving DecidableEq, Repr

/-- JS `Set.prototype.add` on an insertion-ordered duplicate-free list. -/
def addSent (l : List String) (x : String) : List String :=
  if x ∈ l then l else l ++ [x]

/-- The `onMessage` callback of `startWatching` (lines 372–411): scope filter,
GUID dedup, echo suppression by exact text and by 200-character bounded text
match, single-flight gate, then one `handleMessage` turn whose reply (or caught
error text) is recorded in `botSentTexts` and sent to `msg.chatId || msg.sender`.
`none` only when `handleMessage` runs out of fuel. -/
def onMessage (env : Env) (genv : GwEnv) (fuel : Nat) (gw : GwState) (msg : Msg) :
    Option GwResult :=
  if msg.isFromMe = false ∨ msg.text.getD "" = "" ∨ msg.isReaction = true then
    some { gw := gw }
  else if genv.myId ≠ "" ∧ msg.chatId.getD "" ≠ "" ∧
      strIncludes (msg.chatId.getD "") genv.myId = false then
    some { gw := gw }
  else
    let text := trimStr (msg.text.getD "")
    if text = "" then some { gw := gw }
    else if msg.guid ∈ gw.seenGuids then some { gw := gw }
    else
      let gw1 : GwState := { gw with seenGuids := addSent gw.seenGuids msg.guid }
      if text ∈ gw1.botSentTexts then
        some { gw := { gw1 with botSentTexts := gw1.botSentTexts.erase text } }
      else
        match gw1.botSentTexts.find? (fun sent => takeStr 200 sent = takeStr 200 text) with
        | some sent =>
          some { gw := { gw1 with botSentTexts := gw1.botSentTexts.erase sent } }
        | none =>
          if gw1.processing then some { gw := gw1 }
          else
            match handleMessage env fuel gw1.session text with
            | none => none
            | some r =>
              let dest := if msg.chatId.getD "" = "" then msg.sender else msg.chatId.getD ""
              let outText :=
                match r.out with
                | Except.ok rep => genv.render rep
                | Except.error e => genv.renderErr e
              some
                { gw :=
                    { botSentTexts := addSent gw1.botSentTexts outText
                      seenGuids := gw1.seenGuids
                      processing := false
                      session := r.state }
                  sends := [(dest, outText)]
                  invokedSM := true }

/-! ## Session invariant

The shape discipline that actually holds of every reachable session (see the
theorems on claim C2): each step populates exactly the fields it requires,
except that `bookExpires` can survive as a stale leftover in venue_list /
slot_list after the confirm step was left through the hold-expired or
payment-required path (those two transitions clear `pickedSlot` and
`bookToken` but not `bookExpires`). -/

/-- The per-step field-population invariant preserved by `handleMessage`. -/
def WFb (st : State) : Bool :=
  match st.step with
  | Step.idle =>
    st.search.isNone && st.venues.isNone && st.pickedVenue.isNone && st.slots.isNone &&
      st.pickedSlot.isNone && st.bookToken.isNone && st.bookExpires.isNone
  | Step.venue_list =>
    st.search.isSome && st.venues.isSome && st.pickedVenue.isNone && st.slots.isNone &&
      st.pickedSlot.isNone && st.bookToken.isNone
  | Step.slot_list =>
    st.search.isSome && st.venues.isSome && st.pickedVenue.isSome && st.slots.isSome &&
      st.pickedSlot.isNone && st.bookToken.isNone
  | Step.confirm =>
    st.search.isSome && st.venues.isSome && st.pickedVenue.isSome && st.slots.isSome &&
      st.pickedSlot.isSome && st.bookToken.isSome

/-! ## Concrete fixtures for witnesses and counterexamples -/

/-- A concrete extraction result. -/
def sp0 : SearchParams :=
  { query := "italian", location := "new york", lat := 40, lng := -74
    day := "2024-06-02", party_size := 2 }

/-- A New York hit. -/
def hit0 : Hit :=
  { idResy := some 11, name := some "Lilia", neighborhood := some "Williamsburg"
    locality := some "New York", cuisine := some ["Italian"], ratingAverage := some 4
    ratingCount := some 100, priceRangeId := some 3 }

/-- A second New York hit. -/
def hit1 : Hit :=
  { idResy := some 22, name := some "Carbone", neighborhood := some "Greenwich Village"
    locality := some "New York", cuisine := some ["Italian"], ratingAverage := some 5
    ratingCount := some 200, priceRangeId := some 4 }

/-- A concrete search response with two hits. -/
def d0 : SearchData := { hits := [hit0, hit1] }

/-- The venue parsed from `hit0`. -/
def venue0 : Venue := hitToVenue hit0

/-- The venue parsed from `hit1`. -/
def venue1 : Venue := hitToVenue hit1

/-- A concrete raw slot. -/
def rawSlot0 : RawSlot :=
  { dateStart := some "2024-06-02 17:00:00", dateEnd := some "2024-06-02 18:30:00"
    configType := some "Dining Room", configToken := some "cfg" }

/-- A concrete availability response carrying eleven slots. -/
def availData0 : AvailData :=
  { venues := [{ venueIdResy := some 22, slots := List.replicate 11 rawSlot0 }] }

/-- The slot parsed from `rawSlot0`. -/
def slot0 : Slot := mkSlot rawSlot0

/-- A concrete `/3/details` payload holding a token that expires at time 5. -/
def details0 : DetailsData := { bookTokenValue := some "btok", bookTokenExpires := some 5 }

/-- A concrete environment: the clock reads 10, extraction and the read
endpoints succeed, and the commit endpoint answers HTTP 402. -/
def env0 : Env :=
  { now := 10
    extract := fun _ => Except.ok sp0
    searchResp := fun _ _ _ _ => { status := 200, data := d0 }
    availResp := fun _ _ _ _ _ => { status := 200, data := availData0 }
    detailsResp := fun _ _ _ => { status := 200, data := details0 }
    bookResp := fun _ => { status := 402, body := "payment required" } }

/-- A concrete gateway environment with no recipient filter and a trivial
rendering of replies. -/
def genv0 : GwEnv := { myId := "", render := fun _ => "reply", renderErr := fun e => e }

/-- A venue_list session over the two fixture venues. -/
def stVL : State :=
  { step := Step.venue_list, search := some sp0, venues := some [venue0, venue1] }

/-- A confirm session whose hold expired at time 5 (the clock reads 10). -/
def stConfirmExp : State :=
  { step := Step.confirm, search := some sp0, venues := some [venue0, venue1]
    pickedVenue := some venue1, slots := some [slot0], pickedSlot := some slot0
    bookToken := some "btok", bookExpires := some 5 }

/-- The same confirm session with a hold still valid at the clock reading. -/
def stConfirmOk : State := { stConfirmExp with bookExpires := some 20 }

/-! ## Claim C7: single-flight processing -/

/-- Claim C7: an inbound event that arrives while the `processing` flag is true
produces no State Machine invocation (`handleMessage` does not run), mutates no
session state, and sends no reply. -/
theorem single_flight_drop (env : Env) (genv : GwEnv) (fuel : Nat) (gw : GwState)
    (msg : Msg) (hp : gw.processing = true) :
    ∃ res, onMessage env genv fuel gw msg = some res ∧
      res.invokedSM = false ∧ res.sends = [] ∧ res.gw.session = gw.session := by
  simp only [onMessage]
  repeat' split
  all_goals first
    | exact ⟨_, rfl, rfl, rfl, rfl⟩
    | simp_all

/-- Witness for C7 at a concrete busy gateway state and event. -/
theorem single_flight_drop_witness :
    ∃ res,
      onMessage env0 genv0 2 { processing := true }
        { sender := "me", text := some "hi", guid := "g1" } = some res ∧
      res.invokedSM = false ∧ res.sends = [] ∧
      res.gw.session = GwState.session { processing := true } :=
  single_flight_drop env0 genv0 2 { processing := true }
    { sender := "me", text := some "hi", guid := "g1" } rfl

/-! ## Claim C10: an event dropped by the single-flight gate is permanently consumed -/

/-- Claim C10: the GUID of an event is recorded in `seenGuids` before the
single-flight check, so an event dropped because `processing` was true is
permanently consumed — its GUID is in the resulting seen set, and any later
delivery of an event with a GUID already seen is discarded with the gateway
state unchanged, no State Machine invocation, and no reply. -/
theorem dropped_event_consumed (env : Env) (genv : GwEnv) (fuel : Nat) (gw : GwState)
    (msg : Msg)
    (hfm : msg.isFromMe = true) (hrx : msg.isReaction = false)
    (hscope : genv.myId = "" ∨ msg.chatId.getD "" = "" ∨
      strIncludes (msg.chatId.getD "") genv.myId = true)
    (ht : trimStr (msg.text.getD "") ≠ "")
    (hguid : msg.guid ∉ gw.seenGuids)
    (hnoexact : trimStr (msg.text.getD "") ∉ gw.botSentTexts)
    (hnopfx : ∀ s ∈ gw.botSentTexts,
      takeStr 200 s ≠ takeStr 200 (trimStr (msg.text.getD "")))
    (hp : gw.processing = true) :
    ∃ res, onMessage env genv fuel gw msg = some res ∧
      res.invokedSM = false ∧ res.sends = [] ∧ msg.guid ∈ res.gw.seenGuids ∧
      ∀ gw2 : GwState, msg.guid ∈ gw2.seenGuids →
        onMessage env genv fuel gw2 msg = some { gw := gw2 } := by
  have htext0 : msg.text.getD "" ≠ "" := by
    intro h0
    exact ht (by rw [h0]; rfl)
  have hguard2 : ¬(genv.myId ≠ "" ∧ msg.chatId.getD "" ≠ "" ∧
      strIncludes (msg.chatId.getD "") genv.myId = false) := by
    rintro ⟨h1, h2, h3⟩
    rcases hscope with h | h | h
    · exact h1 h
    · exact h2 h
    · rw [h] at h3; cases h3
  have hfind :
      gw.botSentTexts.find?
        (fun sent => takeStr 200 sent = takeStr 200 (trimStr (msg.text.getD ""))) = none := by
    rw [List.find?_eq_none]
    intro s hs
    simp only [decide_eq_true_eq]
    exact hnopfx s hs
  have hlater : ∀ gw2 : GwState, msg.guid ∈ gw2.seenGuids →
      onMessage env genv fuel gw2 msg = some { gw := gw2 } := by
    intro gw2 hseen
    unfold onMessage
    rw [if_neg (by simp [hfm, hrx, htext0]), if_neg hguard2]
    rw [if_neg ht, if_pos hseen]
  have heq : onMessage env genv fuel gw msg =
      some { gw := { gw with seenGuids := addSent gw.seenGuids msg.guid } } := by
    unfold onMessage
    rw [if_neg (by simp [hfm, hrx, htext0]), if_neg hguard2]
    dsimp only
    rw [if_neg ht, if_neg hguid]
    rw [if_neg hnoexact, hfind]
    rw [if_pos hp]
  refine ⟨_, heq, rfl, rfl, ?_, hlater⟩
  show msg.guid ∈ addSent gw.seenGuids msg.guid
  simp [addSent, hguid]

/-- Witness for C10: a busy gateway with one pending sent text drops a fresh
event, records its GUID, and discards any later same-GUID delivery. -/
theorem dropped_event_consumed_witness :
    ∃ res,
      onMessage env0 genv0 2
        { botSentTexts := ["pending"], processing := true, session := stVL }
        { sender := "me", text := some "hello", guid := "g2" } = some res ∧
      res.invokedSM = false ∧ res.sends = [] ∧ "g2" ∈ res.gw.seenGuids ∧
      ∀ gw2 : GwState, "g2" ∈ gw2.seenGuids →
        onMessage env0 genv0 2 gw2 { sender := "me", text := some "hello", guid := "g2" } =
          some { gw := gw2 } :=
  dropped_event_consumed env0 genv0 2
    { botSentTexts := ["pending"], processing := true, session := stVL }
    { sender := "me", text := some "hello", guid := "g2" }
    rfl rfl (Or.inl rfl) (by decide) (by decide) (by decide) (by decide) rfl

/-! ## Claim C8: echo suppression -/

/-- Claim C8: an inbound event (one that reaches the dedup logic: in scope,
non-empty, fresh GUID) whose text exactly equals a pending sent reply, or whose
first 200 characters equal the first 200 characters of some pending sent reply,
is discarded without invoking the State Machine; the matched sent text is
removed from the suppression set, so it no longer blocks the same literal text
later (the set is duplicate-free by construction of `addSent`). -/
theorem echo_suppression_drop (env : Env) (genv : GwEnv) (fuel : Nat) (gw : GwState)
    (msg : Msg)
    (hfm : msg.isFromMe = true) (hrx : msg.isReaction = false)
    (hscope : genv.myId = "" ∨ msg.chatId.getD "" = "" ∨
      strIncludes (msg.chatId.getD "") genv.myId = true)
    (ht : trimStr (msg.text.getD "") ≠ "")
    (hguid : msg.guid ∉ gw.seenGuids)
    (hmatch : trimStr (msg.text.getD "") ∈ gw.botSentTexts ∨
      ∃ s ∈ gw.botSentTexts,
        takeStr 200 s = takeStr 200 (trimStr (msg.text.getD ""))) :
    ∃ res matched, onMessage env genv fuel gw msg = some res ∧
      res.invokedSM = false ∧ res.sends = [] ∧ res.gw.session = gw.session ∧
      matched ∈ gw.botSentTexts ∧
      (matched = trimStr (msg.text.getD "") ∨
        takeStr 200 matched = takeStr 200 (trimStr (msg.text.getD ""))) ∧
      res.gw.botSentTexts = gw.botSentTexts.erase matched ∧
      (gw.botSentTexts.Nodup → matched ∉ res.gw.botSentTexts) := by
  have htext0 : msg.text.getD "" ≠ "" := by
    intro h0
    exact ht (by rw [h0]; rfl)
  have hguard2 : ¬(genv.myId ≠ "" ∧ msg.chatId.getD "" ≠ "" ∧
      strIncludes (msg.chatId.getD "") genv.myId = false) := by
    rintro ⟨h1, h2, h3⟩
    rcases hscope with h | h | h
    · exact h1 h
    · exact h2 h
    · rw [h] at h3; cases h3
  by_cases hexact : trimStr (msg.text.getD "") ∈ gw.botSentTexts
  · have heq : onMessage env genv fuel gw msg =
        some { gw := { botSentTexts := gw.botSentTexts.erase (trimStr (msg.text.getD ""))
                       seenGuids := addSent gw.seenGuids msg.guid
                       processing := gw.processing
                       session := gw.session } } := by
      unfold onMessage
      rw [if_neg (by simp [hfm, hrx, htext0]), if_neg hguard2]
      dsimp only
      rw [if_neg ht, if_neg hguid]
      rw [if_pos hexact]
    refine ⟨_, trimStr (msg.text.getD ""), heq, rfl, rfl, rfl, hexact, Or.inl rfl, rfl, ?_⟩
    intro hnd
    show trimStr (msg.text.getD "") ∉ gw.botSentTexts.erase (trimStr (msg.text.getD ""))
    exact hnd.not_mem_erase
  · have hpfx : ∃ s ∈ gw.botSentTexts,
        takeStr 200 s = takeStr 200 (trimStr (msg.text.getD "")) := by
      rcases hmatch with h | h
      · exact absurd h hexact
      · exact h
    have hsome : (gw.botSentTexts.find?
        (fun sent => takeStr 200 sent = takeStr 200 (trimStr (msg.text.getD "")))).isSome := by
      rw [List.find?_isSome]
      obtain ⟨s, hs, hps⟩ := hpfx
      exact ⟨s, hs, by simpa using hps⟩
    obtain ⟨m, hm⟩ := Option.isSome_iff_exists.mp hsome
    have heq : onMessage env genv fuel gw msg =
        some { gw := { botSentTexts := gw.botSentTexts.erase m
                       seenGuids := addSent gw.seenGuids msg.guid
                       processing := gw.processing
                       session := gw.session } } := by
      unfold onMessage
      rw [if_neg (by simp [hfm, hrx, htext0]), if_neg hguard2]
      dsimp only
      rw [if_neg ht, if_neg hguid]
      rw [if_neg hexact, hm]
    refine ⟨_, m, heq, rfl, rfl, rfl, List.mem_of_find?_eq_some hm, ?_, rfl, ?_⟩
    · exact Or.inr (by simpa using List.find?_some hm)
    · intro hnd
      show m ∉ gw.botSentTexts.erase m
      exact hnd.not_mem_erase

/-- Witness for C8: an exact echo of the pending sent text "reply" is dropped
and removed from the suppression set. -/
theorem echo_suppression_drop_witness :
    ∃ res matched,
      onMessage env0 genv0 2 { botSentTexts := ["reply"] }
        { sender := "me", text := some "reply", guid := "g3" } = some res ∧
      res.invokedSM = false ∧ res.sends = [] ∧
      res.gw.session = GwState.session { botSentTexts := ["reply"] } ∧
      matched ∈ ["reply"] ∧
      (matched = trimStr ((some "reply").getD "") ∨
        takeStr 200 matched = takeStr 200 (trimStr ((some "reply").getD ""))) ∧
      res.gw.botSentTexts = ["reply"].erase matched ∧
      (["reply"].Nodup → matched ∉ res.gw.botSentTexts) :=
  echo_suppression_drop env0 genv0 2 { botSentTexts := ["reply"] }
    { sender := "me", text := some "reply", guid := "g3" }
    rfl rfl (Or.inl rfl) (by decide) (by decide) (Or.inl (by decide))

/-! ## Claims C5 and C9: the location post-filter of `parseVenues` -/

/-- Every venue the post-filter keeps when the filter survives is a matching
venue; the output is always a subsequence of the input of length at most 5,
and is non-empty whenever the input is. Shared workhorse for C5. -/
theorem postFilter_spec (location : String) (all : List Venue) :
    (postFilterVenues location all).length ≤ 5 ∧
    (all ≠ [] → postFilterVenues location all ≠ []) ∧
    (postFilterVenues location all).Sublist all ∧
    (all.filter (venueMatchesLoc location) ≠ [] →
      ∀ v ∈ postFilterVenues location all, venueMatchesLoc location v = true) := by
  simp only [postFilterVenues]
  by_cases h : 0 < (all.filter (venueMatchesLoc location)).length
  · rw [if_pos h]
    refine ⟨List.length_take_le 5 _, fun _ => ?_, ?_, fun _ v hv => ?_⟩
    · rw [← List.length_pos, List.length_take]
      omega
    · exact (List.take_sublist 5 _).trans (List.filter_sublist _)
    · exact List.of_mem_filter ((List.take_sublist 5 _).subset hv)
  · rw [if_neg h]
    refine ⟨List.length_take_le 5 _, fun hne => ?_, List.take_sublist 5 _, fun hne => ?_⟩
    · rw [← List.length_pos] at hne ⊢
      rw [List.length_take]
      omega
    · exact absurd (by rw [← List.length_eq_zero]; omega) hne

/-- Claim C5: `parseVenues` keeps only venues with a significant-word location
match when any such venue exists, falls back to the unfiltered hit list when
the filter removes everything (so raw hits never vanish entirely), and returns
at most 5 venues as a subsequence of the upstream ranking order. -/
theorem parseVenues_spec (data : SearchData) (location : String) :
    (parseVenues data location).length ≤ 5 ∧
    (data.hits.map hitToVenue ≠ [] → parseVenues data location ≠ []) ∧
    (parseVenues data location).Sublist (data.hits.map hitToVenue) ∧
    ((data.hits.map hitToVenue).filter (venueMatchesLoc location) ≠ [] →
      ∀ v ∈ parseVenues data location, venueMatchesLoc location v = true) :=
  postFilter_spec location (data.hits.map hitToVenue)

/-- Witness for C5 at the concrete two-hit search response. -/
theorem parseVenues_spec_witness :
    (parseVenues d0 "new york").length ≤ 5 ∧ parseVenues d0 "new york" ≠ [] ∧
    ∀ v ∈ parseVenues d0 "new york", venueMatchesLoc "new york" v = true :=
  ⟨(parseVenues_spec d0 "new york").1,
   (parseVenues_spec d0 "new york").2.1 (by decide),
   (parseVenues_spec d0 "new york").2.2.2 (by decide)⟩

/-- Claim C9: the location post-filter is idempotent — applying it to its own
output returns that output unchanged. -/
theorem postFilter_idempotent (location : String) (vs : List Venue) :
    postFilterVenues location (postFilterVenues location vs) =
      postFilterVenues location vs := by
  simp only [postFilterVenues]
  by_cases h : 0 < (vs.filter (venueMatchesLoc location)).length
  · rw [if_pos h]
    have hall : ∀ v ∈ (vs.filter (venueMatchesLoc location)).take 5,
        venueMatchesLoc location v = true :=
      fun v hv => List.of_mem_filter ((List.take_sublist 5 _).subset hv)
    rw [List.filter_eq_self.mpr hall]
    have hlen : 0 < ((vs.filter (venueMatchesLoc location)).take 5).length := by
      rw [List.length_take]
      omega
    rw [if_pos hlen, List.take_take]
    norm_num
  · rw [if_neg h]
    have h0 : vs.filter (venueMatchesLoc location) = [] := by
      rw [← List.length_eq_zero]
      omega
    have hsub : (vs.take 5).filter (venueMatchesLoc location) = [] := by
      have hs := (List.take_sublist 5 vs).filter (venueMatchesLoc location)
      rw [h0] at hs
      exact List.sublist_nil.mp hs
    rw [hsub]
    simp [List.take_take]

/-! ## Dispatch lemmas for `handleMessage` -/

/-- A turn whose input is not a global reset dispatches a confirm session to
the confirm branch. -/
theorem handleMessage_to_confirm (env : Env) (fuel : Nat) (st : State) (text : String)
    (hstep : st.step = Step.confirm)
    (hnr : ¬(lowerTrim text = "reset" ∨ lowerTrim text = "start over")) :
    handleMessage env (fuel + 1) st text = some (handleConfirm env st (lowerTrim text)) := by
  simp only [handleMessage, hstep]
  rw [if_neg hnr]

/-- A turn whose input is not a global reset dispatches a slot_list session to
the slot_list branch. -/
theorem handleMessage_to_slot_list (env : Env) (fuel : Nat) (st : State) (text : String)
    (hstep : st.step = Step.slot_list)
    (hnr : ¬(lowerTrim text = "reset" ∨ lowerTrim text = "start over")) :
    handleMessage env (fuel + 1) st text = some (handleSlotList env st (lowerTrim text)) := by
  simp only [handleMessage, hstep]
  rw [if_neg hnr]

/-- In venue_list, an input that is not reset/back and fails the
`parseInt`-range test resets the session and re-dispatches the same raw text:
the turn is exactly a turn on the freshly reset session. -/
theorem handleMessage_venue_list_fallback (env : Env) (fuel : Nat) (st : State) (text : String)
    (hstep : st.step = Step.venue_list)
    (hnr : ¬(lowerTrim text = "reset" ∨ lowerTrim text = "start over"))
    (hnb : lowerTrim text ≠ "back")
    (hinv : venuePickInvalid (lowerTrim text) st = true) :
    handleMessage env (fuel + 1) st text = handleMessage env fuel { step := Step.idle } text := by
  simp only [handleMessage, hstep]
  rw [if_neg hnr, if_neg hnb, if_pos hinv]

/-- In venue_list, an input passing the `parseInt`-range test dispatches to the
venue-pick branch. -/
theorem handleMessage_venue_pick (env : Env) (fuel : Nat) (st : State) (text : String)
    (hstep : st.step = Step.venue_list)
    (hnr : ¬(lowerTrim text = "reset" ∨ lowerTrim text = "start over"))
    (hnb : lowerTrim text ≠ "back")
    (hval : venuePickInvalid (lowerTrim text) st = false) :
    handleMessage env (fuel + 1) st text = some (handleVenuePick env st (lowerTrim text)) := by
  simp only [handleMessage, hstep]
  rw [if_neg hnr, if_neg hnb, if_neg (by simp [hval])]

/-! ## Claim C1: an expired hold never reaches the commit call -/

/-- The confirm branch on an affirmative input with an expired hold: no
booking call, back to slot_list, token cleared (`bookExpires` survives). -/
theorem handleConfirm_expired (env : Env) (st : State) (lower : String)
    (hyes : lower = "yes" ∨ lower = "confirm" ∨ lower = "book")
    (hexpired : holdIsExpired env st = true) :
    handleConfirm env st lower =
      { state := { st with step := Step.slot_list, pickedSlot := none, bookToken := none }
        out := Except.ok (Reply.expiredHold (st.pickedVenue.getD dVenue) (st.slots.getD [])
          (st.search.getD dSearch).day (st.search.getD dSearch).party_size)
        calls := [] } := by
  rcases hyes with h | h | h <;> subst h <;> unfold handleConfirm <;>
    rw [if_neg (by decide), if_pos (by decide), if_pos hexpired]

/-- Claim C1: in the confirm step, on input "yes"/"confirm"/"book", when
`bookExpires` is present and earlier than the wall clock at handling time, the
commit operation (`apiBook`) is never invoked; the session's step becomes
slot_list and `bookToken` is cleared. -/
theorem confirm_expired_never_books (env : Env) (fuel : Nat) (st : State) (text : String)
    (e : Int) (hstep : st.step = Step.confirm)
    (hin : lowerTrim text = "yes" ∨ lowerTrim text = "confirm" ∨ lowerTrim text = "book")
    (hexp : st.bookExpires = some e) (hnow : e < env.now) :
    ∃ r, handleMessage env (fuel + 1) st text = some r ∧
      Call.book ∉ r.calls ∧ r.state.step = Step.slot_list ∧ r.state.bookToken = none := by
  have hnr : ¬(lowerTrim text = "reset" ∨ lowerTrim text = "start over") := by
    rcases hin with h | h | h <;> rw [h] <;> decide
  have hexpired : holdIsExpired env st = true := by
    unfold holdIsExpired
    rw [hexp]
    simpa using hnow
  rw [handleMessage_to_confirm env fuel st text hstep hnr,
    handleConfirm_expired env st (lowerTrim text) hin hexpired]
  exact ⟨_, rfl, by simp, rfl, rfl⟩

/-- Witness for C1: the fixture confirm session whose hold expired at 5 under
the clock reading 10, on input "yes". -/
theorem confirm_expired_never_books_witness :
    ∃ r, handleMessage env0 1 stConfirmExp "yes" = some r ∧
      Call.book ∉ r.calls ∧ r.state.step = Step.slot_list ∧ r.state.bookToken = none :=
  confirm_expired_never_books env0 0 stConfirmExp "yes" 5 rfl (Or.inl (by decide)) rfl
    (by decide)

/-! ## Claim C3: HTTP 402 from the commit call degrades softly to slot_list -/

/-- The confirm branch on "yes" with a live hold and a 402 commit response:
the PAYMENT_REQUIRED error is caught, the session degrades to slot_list with
`pickedSlot`/`bookToken` cleared, and the other fields are untouched. -/
theorem handleConfirm_payment_required (env : Env) (st : State) (lower : String)
    (hyes : lower = "yes" ∨ lower = "confirm" ∨ lower = "book")
    (hlive : holdIsExpired env st = false)
    (h402 : (env.bookResp (st.bookToken.getD "")).status = 402) :
    handleConfirm env st lower =
      { state := { st with step := Step.slot_list, pickedSlot := none, bookToken := none }
        out := Except.ok (Reply.paymentRequired (st.pickedVenue.getD dVenue).name)
        calls := [Call.book] } := by
  have hbook : apiBook env (st.bookToken.getD "") = Except.error "PAYMENT_REQUIRED" := by
    unfold apiBook
    rw [if_pos h402]
  rcases hyes with h | h | h <;> subst h <;> unfold handleConfirm <;>
    rw [if_neg (by decide), if_pos (by decide), if_neg (by simp [hlive]), hbook] <;> rfl

/-- Claim C3: in the confirm step on input "yes", when the hold has not
expired and the commit call answers HTTP 402, no error escapes to the gateway
turn boundary; the step becomes slot_list, `pickedSlot` and `bookToken` are
cleared, and `pickedVenue`, `venues`, `slots`, and `search` are retained
unchanged. -/
theorem confirm_402_degrades (env : Env) (fuel : Nat) (st : State) (text : String)
    (hstep : st.step = Step.confirm) (hin : lowerTrim text = "yes")
    (hlive : holdIsExpired env st = false)
    (h402 : (env.bookResp (st.bookToken.getD "")).status = 402) :
    ∃ r, handleMessage env (fuel + 1) st text = some r ∧
      (∃ rep, r.out = Except.ok rep) ∧
      r.state.step = Step.slot_list ∧ r.state.pickedSlot = none ∧
      r.state.bookToken = none ∧ r.state.pickedVenue = st.pickedVenue ∧
      r.state.venues = st.venues ∧ r.state.slots = st.slots ∧
      r.state.search = st.search := by
  have hnr : ¬(lowerTrim text = "reset" ∨ lowerTrim text = "start over") := by
    rw [hin]; decide
  rw [handleMessage_to_confirm env fuel st text hstep hnr,
    handleConfirm_payment_required env st (lowerTrim text) (Or.inl hin) hlive h402]
  exact ⟨_, rfl, ⟨_, rfl⟩, rfl, rfl, rfl, rfl, rfl, rfl, rfl⟩

/-- Witness for C3: the fixture confirm session whose hold is live until 20
under the clock reading 10, with the commit endpoint answering 402. -/
theorem confirm_402_degrades_witness :
    ∃ r, handleMessage env0 1 stConfirmOk "yes" = some r ∧
      (∃ rep, r.out = Except.ok rep) ∧
      r.state.step = Step.slot_list ∧ r.state.pickedSlot = none ∧
      r.state.bookToken = none ∧ r.state.pickedVenue = stConfirmOk.pickedVenue ∧
      r.state.venues = stConfirmOk.venues ∧ r.state.slots = stConfirmOk.slots ∧
      r.state.search = stConfirmOk.search :=
  confirm_402_degrades env0 0 stConfirmOk "yes" rfl (by decide) (by decide) rfl

/-! ## Claim C4: the venue_list fallback to a brand-new search

The claim as stated is false: the venue_list branch tests
`parseInt(lower, 10)`, and JS `parseInt` accepts a string with a leading
integer and trailing garbage. The input "2x" is not an integer, yet with two
venues listed it selects venue 2 (an availability call) instead of resetting
and re-dispatching as a brand-new search (which would invoke intent extraction
and the search endpoint). -/

/-- Counterexample to C4 as stated: from the fixture venue_list session, the
non-integer input "2x" picks venue 2 (step becomes slot_list via one
availability call) and does not behave like the same text dispatched as a
brand-new search from a reset session (extraction + search calls). -/
theorem venue_list_nonint_pick_cex :
    (handleMessage env0 2 stVL "2x").map (fun r => (r.state.step, r.calls)) =
        some (Step.slot_list, [Call.availability]) ∧
    (handleMessage env0 2 { step := Step.idle } "2x").map (fun r => (r.state.step, r.calls)) =
        some (Step.venue_list, [Call.extract, Call.search]) ∧
    handleMessage env0 2 stVL "2x" ≠ handleMessage env0 2 { step := Step.idle } "2x" :=
  ⟨by decide, by decide, by decide⟩

/-- Claim C4 (amended): in venue_list, an input that is not "reset"/"start
over", not "back", and whose `parseInt(·, 10)` value is NaN or outside
`[1, len(venues)]` causes a full session reset followed by re-dispatch of the
same original raw text — the turn is exactly a turn of that text on the fresh
idle session. (Inputs whose leading-integer prefix parses into range, such as
"2x", instead select that venue.) -/
theorem venue_list_fallback_redispatch (env : Env) (fuel : Nat) (st : State) (text : String)
    (hstep : st.step = Step.venue_list)
    (hnr : ¬(lowerTrim text = "reset" ∨ lowerTrim text = "start over"))
    (hnb : lowerTrim text ≠ "back")
    (hinv : venuePickInvalid (lowerTrim text) st = true) :
    handleMessage env (fuel + 1) st text = handleMessage env fuel { step := Step.idle } text :=
  handleMessage_venue_list_fallback env fuel st text hstep hnr hnb hinv

/-- Witness for the amended C4: the non-numeric input "thai food" from the
fixture venue_list session re-dispatches as a brand-new search. -/
theorem venue_list_fallback_redispatch_witness :
    handleMessage env0 2 stVL "thai food" =
      handleMessage env0 1 { step := Step.idle } "thai food" :=
  venue_list_fallback_redispatch env0 1 stVL "thai food" rfl (by decide) (by decide)
    (by decide)

/-! ## Claim C6: the session's `slots` field and the 10-slot cap

The claim as stated is false: `parseSlots` does not cap its output, and the
venue-pick transition stores the full parsed list in the session; only the
display and the selectable range (`min(slots.length, 10)`) are capped at 10.
With an upstream availability response of 11 slots the session stores 11. -/

/-- Counterexample to C6 as stated: picking venue 1 under the fixture
availability response (11 raw slots) leaves a slot_list session whose `slots`
field holds 11 elements. -/
theorem slots_stored_beyond_ten_cex :
    (handleMessage env0 2 stVL "1").map
        (fun r => (r.state.step, (r.state.slots.getD []).length)) =
      some (Step.slot_list, 11) ∧ 10 < 11 :=
  ⟨by decide, by decide⟩

/-- Claim C6 (amended): on a valid venue pick the session's `slots` field
stores the upstream availability slots of the selected venue one-for-one and
in upstream order (the image under the slot mapping of the raw slot list: no
client-side re-sort and no cap); the 10-slot limit applies only to display and
input selection. -/
theorem slots_stored_upstream_order (env : Env) (fuel : Nat) (st : State) (text : String)
    (data : AvailData)
    (hstep : st.step = Step.venue_list)
    (hnr : ¬(lowerTrim text = "reset" ∨ lowerTrim text = "start over"))
    (hnb : lowerTrim text ≠ "back")
    (hval : venuePickInvalid (lowerTrim text) st = false)
    (hav : apiAvailability env
        ((st.venues.getD []).getD (((parseIntBase10 (lowerTrim text)).getD 0).toNat - 1)
          dVenue).id
        (st.search.getD dSearch).day (st.search.getD dSearch).party_size
        (st.search.getD dSearch).lat (st.search.getD dSearch).lng = Except.ok data) :
    ∃ r, handleMessage env (fuel + 1) st text = some r ∧
      r.state.step = Step.slot_list ∧
      r.state.slots = some
        (((availVenueFor data
            ((st.venues.getD []).getD (((parseIntBase10 (lowerTrim text)).getD 0).toNat - 1)
              dVenue).id).elim [] AvailVenue.slots).map mkSlot) := by
  rw [handleMessage_venue_pick env fuel st text hstep hnr hnb hval]
  unfold handleVenuePick
  dsimp only
  rw [hav]
  refine ⟨_, rfl, rfl, ?_⟩
  show some (parseSlots data _) = _
  unfold parseSlots
  cases availVenueFor data
      ((st.venues.getD []).getD (((parseIntBase10 (lowerTrim text)).getD 0).toNat - 1)
        dVenue).id <;>
    simp [Option.elim]

/-- Witness for the amended C6: picking venue 1 of the fixture session stores
the 11 upstream slots in order. -/
theorem slots_stored_upstream_order_witness :
    ∃ r, handleMessage env0 2 stVL "1" = some r ∧
      r.state.step = Step.slot_list ∧
      r.state.slots = some
        (((availVenueFor availData0
            ((stVL.venues.getD []).getD (((parseIntBase10 (lowerTrim "1")).getD 0).toNat - 1)
              dVenue).id).elim [] AvailVenue.slots).map mkSlot) :=
  slots_stored_upstream_order env0 1 stVL "1" availData0 rfl (by decide) (by decide)
    (by decide) (by decide)

/-! ## Claim C2: the per-step field-population invariant

The claim as stated is false: the hold-expired and payment-required
transitions out of confirm clear `pickedSlot` and `bookToken` but leave
`bookExpires` set (`{ ...state, step: "slot_list", pickedSlot: undefined,
bookToken: undefined }` at lines 321 and 335 omits `bookExpires`, unlike the
decline transition at line 314). The invariant that does hold is `WFb`. -/

/-- Counterexample to C2 as stated: both the hold-expired transition and the
payment-required transition leave confirm for slot_list with `bookExpires`
still populated. -/
theorem leaving_confirm_keeps_bookExpires_cex :
    (handleMessage env0 1 stConfirmExp "yes").map
        (fun r => (r.state.step, r.state.bookExpires)) =
      some (Step.slot_list, some 5) ∧
    (handleMessage env0 1 stConfirmOk "yes").map
        (fun r => (r.state.step, r.state.bookExpires)) =
      some (Step.slot_list, some 20) :=
  ⟨by decide, by decide⟩

/-- The idle branch preserves the invariant. -/
theorem wfb_handleIdle (env : Env) (st : State) (text : String) (hwf : WFb st = true) :
    WFb (handleIdle env st text).state = true := by
  unfold handleIdle
  split
  · simpa using hwf
  split
  · simpa using hwf
  dsimp only
  split
  · simpa using hwf
  · simp [WFb]

/-- The venue-pick branch preserves the invariant. -/
theorem wfb_handleVenuePick (env : Env) (st : State) (lower : String)
    (hstep : st.step = Step.venue_list) (hwf : WFb st = true) :
    WFb (handleVenuePick env st lower).state = true := by
  unfold handleVenuePick
  dsimp only
  split
  · simpa using hwf
  · simp only [WFb, hstep, Bool.and_eq_true] at hwf
    simp [WFb, hwf.1.1.1.1.1, hwf.1.1.1.1.2, hwf.1.2, hwf.2]

/-- The slot_list branch preserves the invariant. -/
theorem wfb_handleSlotList (env : Env) (st : State) (lower : String)
    (hstep : st.step = Step.slot_list) (hwf : WFb st = true) :
    WFb (handleSlotList env st lower).state = true := by
  have hw := hwf
  simp only [WFb, hstep, Bool.and_eq_true] at hw
  unfold handleSlotList
  split
  · simp [WFb, hw.1.1.1.1.1, hw.1.1.1.1.2, hw.1.2, hw.2]
  split
  · simpa using hwf
  try dsimp only
  split
  · simpa using hwf
  try dsimp only
  split
  · simpa using hwf
  try dsimp only
  split
  · simpa using hwf
  · simp [WFb, hw.1.1.1.1.1, hw.1.1.1.1.2, hw.1.1.1.2, hw.1.1.2]

/-- The confirm branch preserves the invariant. -/
theorem wfb_handleConfirm (env : Env) (st : State) (lower : String)
    (hstep : st.step = Step.confirm) (hwf : WFb st = true) :
    WFb (handleConfirm env st lower).state = true := by
  have hw := hwf
  simp only [WFb, hstep, Bool.and_eq_true] at hw
  unfold handleConfirm
  split
  · simp [WFb, hw.1.1.1.1.1, hw.1.1.1.1.2, hw.1.1.1.2, hw.1.1.2]
  split
  · split
    · simp [WFb, hw.1.1.1.1.1, hw.1.1.1.1.2, hw.1.1.1.2, hw.1.1.2]
    split
    · simp [WFb]
    split
    · simp [WFb, hw.1.1.1.1.1, hw.1.1.1.1.2, hw.1.1.1.2, hw.1.1.2]
    · simpa using hwf
  · simpa using hwf

/-- Claim C2 (amended): every field of a reachable session is populated only in
the steps that require it — idle holds nothing; venue_list holds `search` and
`venues`; slot_list adds `pickedVenue` and `slots`; confirm adds `pickedSlot`
and `bookToken` — and every transition leaving confirm clears `pickedSlot` and
`bookToken`; `bookExpires`, however, is only guaranteed clear in idle: the
hold-expired and payment-required exits from confirm retain it as a stale
leftover (only decline and a successful booking clear it). Formally, the
invariant `WFb` is preserved by every `handleMessage` turn. -/
theorem session_invariant_preserved (env : Env) :
    ∀ (fuel : Nat) (st : State) (text : String) (r : HMResult),
      WFb st = true → handleMessage env fuel st text = some r → WFb r.state = true := by
  intro fuel
  induction fuel with
  | zero =>
    intro st text r _ h
    simp [handleMessage] at h
  | succ n ih =>
    intro st text r hwf h
    simp only [handleMessage] at h
    split at h
    · injection h with h2
      subst h2
      decide
    split at h
    · injection h with h2
      subst h2
      exact wfb_handleIdle env st text hwf
    case _ heq =>
      split at h
      · injection h with h2
        subst h2
        decide
      split at h
      · exact ih { step := Step.idle } text r (by decide) h
      · injection h with h2
        subst h2
        exact wfb_handleVenuePick env st (lowerTrim text) heq hwf
    case _ heq =>
      injection h with h2
      subst h2
      exact wfb_handleSlotList env st (lowerTrim text) heq hwf
    case _ heq =>
      injection h with h2
      subst h2
      exact wfb_handleConfirm env st (lowerTrim text) heq hwf

/-- Witness for the amended C2: the fixture confirm session satisfies the
invariant and so does its state after the expired-hold turn. -/
theorem session_invariant_preserved_witness :
    WFb stConfirmExp = true ∧
    ∃ r, handleMessage env0 1 stConfirmExp "yes" = some r ∧ WFb r.state = true :=
  ⟨by decide,
   ⟨_, rfl, session_invariant_preserved env0 1 stConfirmExp "yes" _ (by decide) rfl⟩⟩

end ResyBot
